import Mathlib

/-!
# balancer-tokenswap: the transaction pipeline of `src/index.js`

A shallow embedding of the script: approve USDC, resolve the Uniswap pool, build the swap
parameters, execute the swap, approve the LP token, join the Balancer pool.

* Every call that leaves the program (contract reads, `populateTransaction`,
  `sendTransaction`, `wait`, `estimateGas`, `joinPool`) is recorded in a trace of `Call`s.
  The reply to a call is chosen by the chain client, here a `Chain` record whose fields map
  the history of calls issued so far (the current call last) to a reply, so that replies
  may depend on everything that happened before.
* `async` functions become `Prog` computations: history in, extended history and a result
  or an error out.  `try`/`catch` and `throw` are the `MonadExcept` operations of `Prog`.
* Amounts are the decimal text that `amount.toString()` hands to `ethers.parseUnits`;
  the rendering of a JavaScript number as text is outside the model.
* Logging is dropped, except that the message `main` logs in its `catch` block is the
  value `main` returns.
-/

namespace TokenSwap

/-! ## Data model -/

abbrev Address := String

/-- Token description objects `USDC` and `LINK` (index.js lines 22-42). -/
structure Token where
  chainId : Nat
  address : Address
  decimals : Nat
  symbol : String
  name : String
  isToken : Bool
  isNative : Bool
  wrapped : Bool
  deriving DecidableEq, Repr

def USDC : Token :=
  { chainId := 11155111
    address := "0x1c7D4B196Cb0C7B01d743Fbc6116a902379C7238"
    decimals := 6
    symbol := "USDC"
    name := "USD//C"
    isToken := true
    isNative := true
    wrapped := false }

def LINK : Token :=
  { chainId := 11155111
    address := "0x779877A7B0D9E8603169DdbD7836e478b4624789"
    decimals := 18
    symbol := "LINK"
    name := "Chainlink"
    isToken := true
    isNative := true
    wrapped := false }

def POOL_FACTORY_CONTRACT_ADDRESS : Address := "0x0227628f3F023bb0B980b67D528571c95c6DaC1c"

/-- Line 13 passes the literal through `ethers.getAddress` when the module loads; on a
mixed-case literal that call either throws (the script never starts) or returns the literal
unchanged. -/
def SWAP_ROUTER_CONTRACT_ADDRESS : Address := "0x3bFA4769FB09eefC5a80d6E87c3B9C650f7Ae48E"

def BALANCER_POOL_ADDRESS : Address := "0x9fC9e94C0DdC148f8D4c47c9b1dD78Fbb5e40F4D"

/-- An `ethers.Contract` handle: only its target address matters here. -/
structure Contract where
  address : Address
  deriving DecidableEq, Repr

/-- An `ethers.Wallet`: only its address matters here. -/
structure Wallet where
  address : Address
  deriving DecidableEq, Repr

/-- The record built by `prepareSwapParams` (index.js lines 96-104). -/
structure SwapParams where
  tokenIn : Address
  tokenOut : Address
  fee : Nat
  recipient : Address
  amountIn : Int
  amountOutMinimum : Int
  sqrtPriceLimitX96 : Int
  deriving DecidableEq, Repr

/-- The unsigned transaction a `populateTransaction` call produces: target and arguments. -/
inductive Tx where
  | approve (token spender : Address) (amount : Int)
  | exactInputSingle (router : Address) (params : SwapParams)
  deriving DecidableEq, Repr

/-- The calls that leave the program, in the order index.js issues them. -/
inductive Call where
  | approvePopulate (token spender : Address) (amount : Int)
  | sendTransaction (wallet : Address) (tx : Tx)
  | wait (hash : String)
  | getPool (factory tokenA tokenB : Address) (fee : Nat)
  | token0 (pool : Address)
  | token1 (pool : Address)
  | fee (pool : Address)
  | estimateGas (router : Address) (params : SwapParams)
  | exactInputSinglePopulate (router : Address) (params : SwapParams)
  | joinPool (pool : Address) (amount : String) (maxAmountsIn : List String)
  deriving DecidableEq, Repr

/-- The three ways `FixedNumber.fromString` rejects its input. -/
inductive NumericFault where
  | invalidValue
  | underflow
  | overflow
  deriving DecidableEq, Repr

/-- Errors that travel through the program. -/
inductive Err where
  /-- A `new Error(message)` thrown by index.js itself. -/
  | thrown (message : String)
  /-- A rejection coming from the chain client or the address library. -/
  | rejected (message : String)
  /-- A fault raised by `ethers.parseUnits`. -/
  | numeric (fault : NumericFault)
  deriving DecidableEq, Repr

/-- The chain client as seen by the script.  Each reply is a function of the history of
calls issued so far, the call being answered last. -/
structure Chain where
  /-- The address of `signer`, derived from the configured private key (line 19). -/
  signerAddress : Address
  /-- The checksum normalisation of `ethers.getAddress`: a pure library function. -/
  getAddress : Address → Except String Address
  /-- Reply to a `populateTransaction` call: the encoding may be refused. -/
  populate : List Call → Except String Unit
  /-- Reply to `sendTransaction`: the hash of the transaction response. -/
  send : List Call → Except String String
  /-- Reply to `wait()`: the hash on the receipt. -/
  wait : List Call → Except String String
  /-- Reply to the factory's `getPool`: `none` is JavaScript `null`. -/
  getPool : List Call → Except String (Option Address)
  /-- Joint reply to the `Promise.all` of `token0()`, `token1()` and `fee()`: all three
  values, or the first rejection. -/
  poolReads : List Call → Except String (Address × Address × Nat)
  /-- Reply to the `fee()` read of `prepareSwapParams`. -/
  fee : List Call → Except String Nat
  /-- Reply to `estimateGas.exactInputSingle`. -/
  estimateGas : List Call → Except String Nat
  /-- Reply to `joinPool`: the hash of the transaction response. -/
  joinPool : List Call → Except String String

deriving instance DecidableEq for Except

set_option maxRecDepth 100000

/-! ## Computations with a call trace -/

/-- An `async` computation: it receives the history of calls, extends it, and ends with a
value or an error. -/
def Prog (α : Type) : Type := List Call → List Call × Except Err α

instance : Monad Prog where
  pure a := fun h => (h, Except.ok a)
  bind m f := fun h =>
    match m h with
    | (h', Except.ok a) => f a h'
    | (h', Except.error e) => (h', Except.error e)

instance : MonadExcept Err Prog where
  throw e := fun h => (h, Except.error e)
  tryCatch m handler := fun h =>
    match m h with
    | (h', Except.error e) => handler e h'
    | (h', Except.ok a) => (h', Except.ok a)

/-- Issue one call: record it, then take the reply the chain gives for the new history. -/
def request {α : Type} (c : Call) (reply : List Call → Except String α) : Prog α := fun h =>
  (h ++ [c],
    match reply (h ++ [c]) with
    | Except.ok a => Except.ok a
    | Except.error m => Except.error (Err.rejected m))

/-- Issue several calls at once (`Promise.all`): all are recorded, one joint reply. -/
def requestAll {α : Type} (cs : List Call) (reply : List Call → Except String α) : Prog α :=
  fun h =>
    (h ++ cs,
      match reply (h ++ cs) with
      | Except.ok a => Except.ok a
      | Except.error m => Except.error (Err.rejected m))

/-- A library call that touches no contract: nothing is recorded. -/
def library {α : Type} (r : Except String α) : Prog α := fun h =>
  (h,
    match r with
    | Except.ok a => Except.ok a
    | Except.error m => Except.error (Err.rejected m))

/-! ## `ethers.parseUnits` -/

/-- The character class `[0-9]`. -/
def isDigit (c : Char) : Bool := decide ('0' ≤ c) && decide (c ≤ '9')

/-- The match of `/^(-?)([0-9]*)\.?([0-9]*)$/`: sign, whole digits, fraction digits. -/
def matchFixed (value : String) : Option (Bool × List Char × List Char) :=
  let cs := value.toList
  let signed : Bool × List Char :=
    match cs with
    | '-' :: r => (true, r)
    | _ => (false, cs)
  let whole := signed.2.takeWhile isDigit
  let afterWhole := signed.2.dropWhile isDigit
  let fraction :=
    match afterWhole with
    | '.' :: r => r
    | _ => afterWhole
  if fraction.all isDigit then some (signed.1, whole, fraction) else none

/-- The number a string of decimal digits denotes. -/
def digitsToNat (ds : List Char) : Nat :=
  ds.foldl (fun acc ch => 10 * acc + (ch.toNat - 48)) 0

/-- The loop `while (decimal.length < decimals) decimal += "0000"`; `fuel` bounds the
number of rounds, and `decimals` rounds always suffice. -/
def padZeros : Nat → List Char → Nat → List Char
  | 0, decimal, _ => decimal
  | fuel + 1, decimal, decimals =>
    if decimal.length < decimals then padZeros fuel (decimal ++ ['0', '0', '0', '0']) decimals
    else decimal

/-- Modelled from the spec: `FixedNumber.fromString` of the ethers library, which is not
part of the repository.  The spec only says that an amount "is scaled to base units using
the asset's decimal precision"; the steps below are those of the library routine: match the
numeral, require at least one digit, require `decimals <= 80`, pad the fraction with zeros,
refuse non-zero digits beyond `decimals`, cut the fraction to `decimals` digits, read
sign, whole part and fraction as one integer, and check the signed `width`-bit range. -/
def fromString (value : String) (decimals width : Nat) : Except NumericFault Int :=
  match matchFixed value with
  | none => Except.error NumericFault.invalidValue
  | some (neg, m2, m3) =>
    if m2.length + m3.length = 0 then Except.error NumericFault.invalidValue
    else if 80 < decimals then Except.error NumericFault.invalidValue
    else
      let whole := if m2.isEmpty then ['0'] else m2
      let padded := padZeros decimals m3 decimals
      if (padded.drop decimals).all (fun ch => ch == '0') then
        let decimal := padded.take decimals
        let magnitude : Int := (digitsToNat (whole ++ decimal) : Nat)
        let val : Int := if neg then -magnitude else magnitude
        if -(2 ^ (width - 1) : Int) ≤ val ∧ val < (2 ^ (width - 1) : Int) then Except.ok val
        else Except.error NumericFault.overflow
      else Except.error NumericFault.underflow

/-- Modelled from the spec: `ethers.parseUnits(value, decimals)` of the ethers library,
which is not part of the repository; it is `FixedNumber.fromString` at width 512. -/
def parseUnits (value : String) (decimals : Nat) : Except NumericFault Int :=
  fromString value decimals 512

/-- Run `parseUnits` inside a computation: a fault becomes a thrown error, no call is
recorded. -/
def scale (value : String) (decimals : Nat) : Prog Int := fun h =>
  (h,
    match parseUnits value decimals with
    | Except.ok n => Except.ok n
    | Except.error f => Except.error (Err.numeric f))

/-- The global `signer` (line 19). -/
def signer (env : Chain) : Wallet := ⟨env.signerAddress⟩

/-- The global `factoryContract` (line 18). -/
def factoryContract : Contract := ⟨POOL_FACTORY_CONTRACT_ADDRESS⟩

/-- Function `approveToken` (index.js lines 45-72). -/
def approveToken (env : Chain) (tokenAddress : Address) (amount : String) (wallet : Wallet) :
    Prog Unit :=
  tryCatch
    (do
      let normalizedTokenAddress ← library (env.getAddress tokenAddress)
      let tokenContract : Contract := ⟨normalizedTokenAddress⟩
      let approveAmount ← scale amount USDC.decimals
      let approveTransaction ← (do
        request (Call.approvePopulate tokenContract.address SWAP_ROUTER_CONTRACT_ADDRESS
          approveAmount) env.populate
        pure (Tx.approve tokenContract.address SWAP_ROUTER_CONTRACT_ADDRESS approveAmount))
      let transactionResponse ←
        request (Call.sendTransaction wallet.address approveTransaction) env.send
      let _receipt ← request (Call.wait transactionResponse) env.wait
      pure ())
    (fun _ => throw (Err.thrown "Token approval failed"))

/-- What `getPoolInfo` returns. -/
structure PoolInfo where
  poolContract : Contract
  token0 : Address
  token1 : Address
  fee : Nat
  deriving DecidableEq, Repr

/-- JavaScript falsiness of the value `getPool` resolves to: `null` and the empty string. -/
def falsy : Option Address → Bool
  | none => true
  | some a => a == ""

/-- Function `getPoolInfo` (index.js lines 76-92). -/
def getPoolInfo (env : Chain) (factoryContract : Contract) (tokenIn tokenOut : Token) :
    Prog PoolInfo := do
  let poolAddress ←
    request (Call.getPool factoryContract.address tokenIn.address tokenOut.address 3000)
      env.getPool
  if falsy poolAddress then
    throw (Err.thrown "Failed to get pool address")
  else
    let poolContract : Contract := ⟨poolAddress.getD ""⟩
    let (token0, token1, fee) ←
      requestAll
        [Call.token0 poolContract.address, Call.token1 poolContract.address,
          Call.fee poolContract.address]
        env.poolReads
    pure { poolContract := poolContract, token0 := token0, token1 := token1, fee := fee }

/-- Function `prepareSwapParams` (index.js lines 95-105). -/
def prepareSwapParams (env : Chain) (poolContract : Contract) (signer : Wallet)
    (amountIn : Int) : Prog SwapParams := do
  let fee ← request (Call.fee poolContract.address) env.fee
  pure
    { tokenIn := USDC.address
      tokenOut := LINK.address
      fee := fee
      recipient := signer.address
      amountIn := amountIn
      amountOutMinimum := 0
      sqrtPriceLimitX96 := 0 }

/-- Function `executeSwap` (index.js lines 108-130). -/
def executeSwap (env : Chain) (swapRouter : Contract) (params : SwapParams)
    (signer : Wallet) : Prog Unit :=
  tryCatch
    (do
      let _estimatedGas ← request (Call.estimateGas swapRouter.address params) env.estimateGas
      let tx ← (do
        request (Call.exactInputSinglePopulate swapRouter.address params) env.populate
        pure (Tx.exactInputSingle swapRouter.address params))
      let _receipt ← request (Call.sendTransaction signer.address tx) env.send
      pure ())
    (fun _ => throw (Err.thrown "Swap execution failed"))

/-- Function `approveBalancerLPToken` (index.js lines 136-154). -/
def approveBalancerLPToken (env : Chain) (tokenAddress : Address) (amount : String)
    (wallet : Wallet) : Prog Unit :=
  tryCatch
    (do
      let tokenContract : Contract := ⟨tokenAddress⟩
      let approveAmount ← scale amount LINK.decimals
      let approveTransaction ← (do
        request (Call.approvePopulate tokenContract.address BALANCER_POOL_ADDRESS
          approveAmount) env.populate
        pure (Tx.approve tokenContract.address BALANCER_POOL_ADDRESS approveAmount))
      let transactionResponse ←
        request (Call.sendTransaction wallet.address approveTransaction) env.send
      let _receipt ← request (Call.wait transactionResponse) env.wait
      pure ())
    (fun _ => throw (Err.thrown "LP token approval failed"))

/-- Function `addLiquidityToBalancerPool` (index.js lines 157-173). -/
def addLiquidityToBalancerPool (env : Chain) (amount : String) (maxAmountsIn : List String) :
    Prog Unit :=
  tryCatch
    (do
      let balancerPoolContract : Contract := ⟨BALANCER_POOL_ADDRESS⟩
      let joinTransaction ←
        request (Call.joinPool balancerPoolContract.address amount maxAmountsIn) env.joinPool
      let _receipt ← request (Call.wait joinTransaction) env.wait
      pure ())
    (fun _ => throw (Err.thrown "Adding liquidity failed"))

/-- Function `main` (index.js lines 176-198).  The value is the error whose message the
`catch` block logs, or `none` when the `try` block ran to its end; an error of the
computation itself is a rejection of the promise `main` returns. -/
def main (env : Chain) (swapAmount liquidityAmount : String) : Prog (Option Err) := do
  let inputAmount := swapAmount
  let amountIn ← scale inputAmount USDC.decimals
  tryCatch
    (do
      approveToken env USDC.address inputAmount (signer env)
      let info ← getPoolInfo env factoryContract USDC LINK
      let params ← prepareSwapParams env info.poolContract (signer env) amountIn
      let swapRouter : Contract := ⟨SWAP_ROUTER_CONTRACT_ADDRESS⟩
      executeSwap env swapRouter params (signer env)
      approveBalancerLPToken env LINK.address liquidityAmount (signer env)
      addLiquidityToBalancerPool env liquidityAmount [liquidityAmount]
      pure none)
    (fun error => pure (some error))

/-- A chain on which every call succeeds; the pool of the pair sits at `pool`. -/
def happyChain (pool : Option Address) : Chain :=
  { signerAddress := "0xSigner"
    getAddress := fun a => Except.ok a
    populate := fun _ => Except.ok ()
    send := fun h => Except.ok ("0xtx" ++ toString h.length)
    wait := fun h => Except.ok ("0xrc" ++ toString h.length)
    getPool := fun _ => Except.ok pool
    poolReads := fun _ => Except.ok (USDC.address, LINK.address, 3000)
    fee := fun _ => Except.ok 3000
    estimateGas := fun _ => Except.ok 150000
    joinPool := fun h => Except.ok ("0xjoin" ++ toString h.length) }


/-! ## Definitions used to state the properties -/

/-- The parameter record `prepareSwapParams` builds from a fee, a recipient and an amount. -/
def swapParamsOf (fee : Nat) (recipient : Address) (amountIn : Int) : SwapParams :=
  { tokenIn := "0x1c7D4B196Cb0C7B01d743Fbc6116a902379C7238"
    tokenOut := "0x779877A7B0D9E8603169DdbD7836e478b4624789"
    fee := fee
    recipient := recipient
    amountIn := amountIn
    amountOutMinimum := 0
    sqrtPriceLimitX96 := 0 }

/-- Judgement `Issues P R m`: from any history, `m` only appends calls that satisfy `P`, and a
value it returns satisfies `R`. -/
def Issues {α : Type} (P : Call → Prop) (R : α → Prop) (m : Prog α) : Prop :=
  ∀ h, ∃ ext, (m h).1 = h ++ ext ∧ (∀ c ∈ ext, P c) ∧ ∀ a, (m h).2 = Except.ok a → R a

/-- The address `getPool` reports when no pool exists. -/
def ZERO_ADDRESS : Address := "0x0000000000000000000000000000000000000000"

/-- The sixteen calls of `main(1, 0.5)` on `happyChain (some "0xPool")`, in order. -/
def successfulRun : List Call :=
  [Call.approvePopulate USDC.address SWAP_ROUTER_CONTRACT_ADDRESS 1000000,
    Call.sendTransaction "0xSigner"
      (Tx.approve USDC.address SWAP_ROUTER_CONTRACT_ADDRESS 1000000),
    Call.wait "0xtx2",
    Call.getPool POOL_FACTORY_CONTRACT_ADDRESS USDC.address LINK.address 3000,
    Call.token0 "0xPool",
    Call.token1 "0xPool",
    Call.fee "0xPool",
    Call.fee "0xPool",
    Call.estimateGas SWAP_ROUTER_CONTRACT_ADDRESS (swapParamsOf 3000 "0xSigner" 1000000),
    Call.exactInputSinglePopulate SWAP_ROUTER_CONTRACT_ADDRESS
      (swapParamsOf 3000 "0xSigner" 1000000),
    Call.sendTransaction "0xSigner"
      (Tx.exactInputSingle SWAP_ROUTER_CONTRACT_ADDRESS
        (swapParamsOf 3000 "0xSigner" 1000000)),
    Call.approvePopulate LINK.address BALANCER_POOL_ADDRESS 500000000000000000,
    Call.sendTransaction "0xSigner"
      (Tx.approve LINK.address BALANCER_POOL_ADDRESS 500000000000000000),
    Call.wait "0xtx13",
    Call.joinPool BALANCER_POOL_ADDRESS "0.5" ["0.5"],
    Call.wait "0xjoin15"]

/-! ## Theorems -/

@[simp] theorem pure_apply {α : Type} (a : α) (h : List Call) :
    (pure a : Prog α) h = (h, Except.ok a) := rfl

@[simp] theorem bind_apply {α β : Type} (m : Prog α) (f : α → Prog β) (h : List Call) :
    (m >>= f) h =
      match m h with
      | (h', Except.ok a) => f a h'
      | (h', Except.error e) => (h', Except.error e) := rfl

@[simp] theorem throw_apply {α : Type} (e : Err) (h : List Call) :
    (throw e : Prog α) h = (h, Except.error e) := rfl

@[simp] theorem tryCatch_apply {α : Type} (m : Prog α) (k : Err → Prog α) (h : List Call) :
    (tryCatch m k) h =
      match m h with
      | (h', Except.error e) => k e h'
      | (h', Except.ok a) => (h', Except.ok a) := rfl

/-! ## Reasoning about the calls a computation issues -/

theorem Issues.pure {α : Type} {P : Call → Prop} {R : α → Prop} {a : α} (ha : R a) :
    Issues P R (Pure.pure a : Prog α) := by
  intro h
  exact ⟨[], by simp, by simp, by simpa using ha⟩

theorem Issues.throw {α : Type} {P : Call → Prop} {R : α → Prop} (e : Err) :
    Issues P R (throw e : Prog α) := by
  intro h
  exact ⟨[], by simp, by simp, by simp⟩

theorem Issues.tryCatch {α : Type} {P : Call → Prop} {R : α → Prop}
    {m : Prog α} {k : Err → Prog α} (hm : Issues P R m) (hk : ∀ e, Issues P R (k e)) :
    Issues P R (tryCatch m k) := by
  intro h
  obtain ⟨e1, h1, p1, r1⟩ := hm h
  rcases hmh : m h with ⟨h', r⟩
  rw [hmh] at h1 r1
  simp only at h1 r1
  subst h1
  cases r with
  | ok a =>
    refine ⟨e1, ?_, p1, ?_⟩
    · simp [hmh]
    · simpa [hmh] using r1
  | error e =>
    obtain ⟨e2, h2, p2, r2⟩ := hk e (h ++ e1)
    refine ⟨e1 ++ e2, ?_, ?_, ?_⟩
    · simp [hmh, h2]
    · intro c hc
      rcases List.mem_append.mp hc with hc | hc
      · exact p1 c hc
      · exact p2 c hc
    · simpa [hmh] using r2

theorem Issues.request {α : Type} {P : Call → Prop} {c : Call}
    (reply : List Call → Except String α) (hc : P c) :
    Issues P (fun _ => True) (request c reply) := by
  intro h
  exact ⟨[c], rfl, by simpa using hc, fun _ _ => trivial⟩

theorem Issues.requestAll {α : Type} {P : Call → Prop} {cs : List Call}
    (reply : List Call → Except String α) (hc : ∀ c ∈ cs, P c) :
    Issues P (fun _ => True) (requestAll cs reply) := by
  intro h
  exact ⟨cs, rfl, hc, fun _ _ => trivial⟩

theorem Issues.library {α : Type} {P : Call → Prop} (r : Except String α) :
    Issues P (fun _ => True) (library r) := by
  intro h
  exact ⟨[], by simp [TokenSwap.library], by simp, fun _ _ => trivial⟩

theorem Issues.scale {P : Call → Prop} (value : String) (decimals : Nat) :
    Issues P (fun n => parseUnits value decimals = Except.ok n) (scale value decimals) := by
  intro h
  refine ⟨[], by simp [TokenSwap.scale], by simp, ?_⟩
  intro a ha
  simp only [TokenSwap.scale] at ha
  split at ha
  · next n hn => simp at ha; rw [hn, ha]
  · simp at ha

/-! ## What each function of index.js issues -/

theorem padZeros_eq (fuel : Nat) (decimal : List Char) (decimals : Nat) :
    ∃ k, padZeros fuel decimal decimals = decimal ++ List.replicate k '0' := by
  induction fuel generalizing decimal with
  | zero => exact ⟨0, by simp [padZeros]⟩
  | succ fuel ih =>
    unfold padZeros
    split
    · obtain ⟨k, hk⟩ := ih (decimal ++ ['0', '0', '0', '0'])
      refine ⟨4 + k, ?_⟩
      rw [hk, List.append_assoc, List.replicate_add]
      rfl
    · exact ⟨0, by simp⟩

theorem tryCatch_throw_error {α : Type} (m : Prog α) (e0 e : Err) (h h' : List Call)
    (hr : tryCatch m (fun _ => throw e0) h = (h', Except.error e)) : e = e0 := by
  simp only [tryCatch_apply] at hr
  rcases hm : m h with ⟨t, r⟩
  rw [hm] at hr
  cases r with
  | ok a => simp at hr
  | error e1 =>
    simp only [throw_apply, Prod.mk.injEq, Except.error.injEq] at hr
    exact hr.2.symm

/-- C8: when the pool contract reports the fee `fee`, `prepareSwapParams` returns the record
with tokenIn the USDC address, tokenOut the LINK address, that fee, the address of the signer
as recipient, the given amountIn unchanged, amountOutMinimum 0 and sqrtPriceLimitX96 0; the
only call it makes is the `fee()` read. -/
theorem prepareSwapParams_record (env : Chain) (poolContract : Contract) (sg : Wallet)
    (amountIn : Int) (h : List Call) (fee : Nat)
    (hfee : env.fee (h ++ [Call.fee poolContract.address]) = Except.ok fee) :
    prepareSwapParams env poolContract sg amountIn h =
      (h ++ [Call.fee poolContract.address],
        Except.ok
          { tokenIn := "0x1c7D4B196Cb0C7B01d743Fbc6116a902379C7238"
            tokenOut := "0x779877A7B0D9E8603169DdbD7836e478b4624789"
            fee := fee
            recipient := sg.address
            amountIn := amountIn
            amountOutMinimum := 0
            sqrtPriceLimitX96 := 0 }) := by
  simp [prepareSwapParams, request, hfee, USDC, LINK]

/-- An instance of C8: the pool at `0xPool` reports the fee 3000. -/
theorem prepareSwapParams_record_witness :
    prepareSwapParams (happyChain (some "0xPool")) ⟨"0xPool"⟩ ⟨"0xSigner"⟩ 1000000 [] =
      ([Call.fee "0xPool"],
        Except.ok
          { tokenIn := "0x1c7D4B196Cb0C7B01d743Fbc6116a902379C7238"
            tokenOut := "0x779877A7B0D9E8603169DdbD7836e478b4624789"
            fee := 3000
            recipient := "0xSigner"
            amountIn := 1000000
            amountOutMinimum := 0
            sqrtPriceLimitX96 := 0 }) :=
  prepareSwapParams_record (happyChain (some "0xPool")) ⟨"0xPool"⟩ ⟨"0xSigner"⟩ 1000000 []
    3000 rfl

/-- C3 (the code at the zero address): when the factory answers `getPool` with the zero
address, `getPoolInfo` does not stop: it issues the `token0`, `token1` and `fee` reads
against the zero address, and whatever it ends with is not the "Failed to get pool address"
error.  Only the `null` answer is refused. -/
theorem getPoolInfo_zero_address (env : Chain) (h : List Call) :
    (getPoolInfo { env with getPool := fun _ => Except.ok (some ZERO_ADDRESS) }
        factoryContract USDC LINK h).1 =
        h ++ [Call.getPool POOL_FACTORY_CONTRACT_ADDRESS USDC.address LINK.address 3000,
          Call.token0 ZERO_ADDRESS, Call.token1 ZERO_ADDRESS, Call.fee ZERO_ADDRESS] ∧
      (getPoolInfo { env with getPool := fun _ => Except.ok (some ZERO_ADDRESS) }
        factoryContract USDC LINK h).2 ≠
        Except.error (Err.thrown "Failed to get pool address") ∧
      getPoolInfo { env with getPool := fun _ => Except.ok none } factoryContract USDC LINK h =
        (h ++ [Call.getPool POOL_FACTORY_CONTRACT_ADDRESS USDC.address LINK.address 3000],
          Except.error (Err.thrown "Failed to get pool address")) := by
  refine ⟨?_, ?_, ?_⟩
  · cases hq : env.poolReads (h ++ [Call.getPool POOL_FACTORY_CONTRACT_ADDRESS USDC.address
        LINK.address 3000, Call.token0 ZERO_ADDRESS, Call.token1 ZERO_ADDRESS,
        Call.fee ZERO_ADDRESS]) <;>
      simp [getPoolInfo, request, requestAll, falsy, ZERO_ADDRESS, factoryContract] at hq ⊢ <;>
      simp [hq]
  · cases hq : env.poolReads (h ++ [Call.getPool POOL_FACTORY_CONTRACT_ADDRESS USDC.address
        LINK.address 3000, Call.token0 ZERO_ADDRESS, Call.token1 ZERO_ADDRESS,
        Call.fee ZERO_ADDRESS]) <;>
      simp [getPoolInfo, request, requestAll, falsy, ZERO_ADDRESS, factoryContract] at hq ⊢ <;>
      simp [hq]
  · simp [getPoolInfo, request, falsy, factoryContract]

theorem approveToken_first_call (env : Chain) (tokenAddress tok : Address) (amount : String)
    (wallet : Wallet) (h : List Call) (n : Int)
    (ht : env.getAddress tokenAddress = Except.ok tok)
    (hn : parseUnits amount USDC.decimals = Except.ok n) :
    ∃ rest, (approveToken env tokenAddress amount wallet h).1 =
      h ++ Call.approvePopulate tok SWAP_ROUTER_CONTRACT_ADDRESS n :: rest := by
  cases h1 : env.populate (h ++ [Call.approvePopulate tok SWAP_ROUTER_CONTRACT_ADDRESS n]) with
  | error m =>
    exact ⟨[], by simp [approveToken, scale, library, request, hn, ht, h1]⟩
  | ok u =>
    cases h2 : env.send (h ++ [Call.approvePopulate tok SWAP_ROUTER_CONTRACT_ADDRESS n,
        Call.sendTransaction wallet.address
          (Tx.approve tok SWAP_ROUTER_CONTRACT_ADDRESS n)]) with
    | error m =>
      exact ⟨[Call.sendTransaction wallet.address
        (Tx.approve tok SWAP_ROUTER_CONTRACT_ADDRESS n)],
        by simp [approveToken, scale, library, request, hn, ht, h1, h2]⟩
    | ok hash =>
      cases h3 : env.wait (h ++ [Call.approvePopulate tok SWAP_ROUTER_CONTRACT_ADDRESS n,
          Call.sendTransaction wallet.address (Tx.approve tok SWAP_ROUTER_CONTRACT_ADDRESS n),
          Call.wait hash]) <;>
        exact ⟨[Call.sendTransaction wallet.address
          (Tx.approve tok SWAP_ROUTER_CONTRACT_ADDRESS n), Call.wait hash],
          by simp [approveToken, scale, library, request, hn, ht, h1, h2, h3]⟩

/-- C5 (the code on LINK): asked to approve 1 LINK, `approveToken` encodes the amount
1000000 = 10^6 into the approve call, the scaling of USDC, whereas the precision of LINK
gives 10^18. -/
theorem approveToken_link_amount (env : Chain) (wallet : Wallet) (h : List Call) :
    (∃ rest, (approveToken { env with getAddress := fun a => Except.ok a } LINK.address "1"
        wallet h).1 =
        h ++ Call.approvePopulate LINK.address SWAP_ROUTER_CONTRACT_ADDRESS 1000000 :: rest) ∧
      parseUnits "1" LINK.decimals = Except.ok 1000000000000000000 := by
  refine ⟨?_, by decide⟩
  exact approveToken_first_call _ LINK.address LINK.address "1" wallet h 1000000 rfl
    (by decide)

theorem parseUnits_rejects (s : String) (d : Nat)
    (h : matchFixed s = none ∨
      ∃ neg w f, matchFixed s = some (neg, w, f) ∧ ∃ ch ∈ f.drop d, ch ≠ '0') :
    ∀ n, parseUnits s d ≠ Except.ok n := by
  intro n
  unfold parseUnits fromString
  rcases h with h | ⟨neg, w, f, hm, ch, hch, hne⟩
  · simp [h]
  · simp only [hm]
    split
    · simp
    · split
      · simp
      · obtain ⟨k, hk⟩ := padZeros_eq d f d
        have hmem : ch ∈ (padZeros d f d).drop d := by
          rw [hk, List.drop_append_eq_append_drop]
          exact List.mem_append_left _ hch
        have hall : ((padZeros d f d).drop d).all (fun c => c == '0') = false := by
          rw [List.all_eq_false]
          exact ⟨ch, hmem, by simpa using hne⟩
        simp [hall]

/-- C10: when the swapAmount cannot be scaled to 6 decimals, because it is not a decimal
numeral, or has a non-zero digit after the sixth fraction digit, or is refused by
`parseUnits` for any other reason, `main` issues no call at all and its promise is rejected
with the fault of `parseUnits`: the scaling comes before the first approval. -/
theorem main_unscalable_no_calls (env : Chain) (s l : String)
    (hs : matchFixed s = none ∨
      (∃ neg w f, matchFixed s = some (neg, w, f) ∧ ∃ ch ∈ f.drop 6, ch ≠ '0') ∨
      ∀ n, parseUnits s USDC.decimals ≠ Except.ok n) :
    ∃ fault, parseUnits s USDC.decimals = Except.error fault ∧
      main env s l [] = ([], Except.error (Err.numeric fault)) := by
  have hno : ∀ n, parseUnits s USDC.decimals ≠ Except.ok n := by
    rcases hs with h | h | h
    · exact parseUnits_rejects s USDC.decimals (Or.inl h)
    · exact parseUnits_rejects s USDC.decimals (Or.inr h)
    · exact h
  cases hp : parseUnits s USDC.decimals with
  | ok n => exact absurd hp (hno n)
  | error fault => exact ⟨fault, rfl, by simp [main, scale, hp]⟩

/-- Two instances of C10: a seventh significant fraction digit, and exponent notation. -/
theorem main_unscalable_no_calls_witness :
    (∃ fault, parseUnits "0.0000001" USDC.decimals = Except.error fault ∧
      main (happyChain (some "0xPool")) "0.0000001" "0.5" [] =
        ([], Except.error (Err.numeric fault))) ∧
    (∃ fault, parseUnits "1e-7" USDC.decimals = Except.error fault ∧
      main (happyChain (some "0xPool")) "1e-7" "0.5" [] =
        ([], Except.error (Err.numeric fault))) :=
  ⟨main_unscalable_no_calls (happyChain (some "0xPool")) "0.0000001" "0.5"
      (Or.inr (Or.inl ⟨false, ['0'], ['0', '0', '0', '0', '0', '0', '1'], by decide, '1',
        by decide, by decide⟩)),
    main_unscalable_no_calls (happyChain (some "0xPool")) "1e-7" "0.5" (Or.inl (by decide))⟩

/-- C7: fail-fast.  In a run of `main` that reached its `try` block, whichever of the six
steps fails first ends the run: the history `main` ends with is the history at which that
step stopped (nothing of a later step is issued, nothing is issued again), and the error
`main` reports is the error of that step; for the four wrapped steps it is the fixed
message of the wrapper. -/
theorem main_fail_fast (env : Chain) (s l : String) (n : Int)
    (hn : parseUnits s USDC.decimals = Except.ok n) :
    (∀ h1 e, approveToken env USDC.address s (signer env) [] = (h1, Except.error e) →
        e = Err.thrown "Token approval failed" ∧
          main env s l [] = (h1, Except.ok (some e))) ∧
      (∀ h1 h2 e, approveToken env USDC.address s (signer env) [] = (h1, Except.ok ()) →
        getPoolInfo env factoryContract USDC LINK h1 = (h2, Except.error e) →
        main env s l [] = (h2, Except.ok (some e))) ∧
      (∀ h1 h2 h3 info e,
        approveToken env USDC.address s (signer env) [] = (h1, Except.ok ()) →
        getPoolInfo env factoryContract USDC LINK h1 = (h2, Except.ok info) →
        prepareSwapParams env info.poolContract (signer env) n h2 = (h3, Except.error e) →
        main env s l [] = (h3, Except.ok (some e))) ∧
      (∀ h1 h2 h3 h4 info params e,
        approveToken env USDC.address s (signer env) [] = (h1, Except.ok ()) →
        getPoolInfo env factoryContract USDC LINK h1 = (h2, Except.ok info) →
        prepareSwapParams env info.poolContract (signer env) n h2 = (h3, Except.ok params) →
        executeSwap env ⟨SWAP_ROUTER_CONTRACT_ADDRESS⟩ params (signer env) h3 =
          (h4, Except.error e) →
        e = Err.thrown "Swap execution failed" ∧
          main env s l [] = (h4, Except.ok (some e))) ∧
      (∀ h1 h2 h3 h4 h5 info params e,
        approveToken env USDC.address s (signer env) [] = (h1, Except.ok ()) →
        getPoolInfo env factoryContract USDC LINK h1 = (h2, Except.ok info) →
        prepareSwapParams env info.poolContract (signer env) n h2 = (h3, Except.ok params) →
        executeSwap env ⟨SWAP_ROUTER_CONTRACT_ADDRESS⟩ params (signer env) h3 =
          (h4, Except.ok ()) →
        approveBalancerLPToken env LINK.address l (signer env) h4 = (h5, Except.error e) →
        e = Err.thrown "LP token approval failed" ∧
          main env s l [] = (h5, Except.ok (some e))) ∧
      (∀ h1 h2 h3 h4 h5 h6 info params e,
        approveToken env USDC.address s (signer env) [] = (h1, Except.ok ()) →
        getPoolInfo env factoryContract USDC LINK h1 = (h2, Except.ok info) →
        prepareSwapParams env info.poolContract (signer env) n h2 = (h3, Except.ok params) →
        executeSwap env ⟨SWAP_ROUTER_CONTRACT_ADDRESS⟩ params (signer env) h3 =
          (h4, Except.ok ()) →
        approveBalancerLPToken env LINK.address l (signer env) h4 = (h5, Except.ok ()) →
        addLiquidityToBalancerPool env l [l] h5 = (h6, Except.error e) →
        e = Err.thrown "Adding liquidity failed" ∧
          main env s l [] = (h6, Except.ok (some e))) := by
  refine ⟨?_, ?_, ?_, ?_, ?_, ?_⟩
  · intro h1 e hA
    exact ⟨tryCatch_throw_error _ _ _ _ _ hA, by simp [main, scale, hn, hA]⟩
  · intro h1 h2 e hA hP
    simp [main, scale, hn, hA, hP]
  · intro h1 h2 h3 info e hA hP hS
    simp [main, scale, hn, hA, hP, hS]
  · intro h1 h2 h3 h4 info params e hA hP hS hX
    exact ⟨tryCatch_throw_error _ _ _ _ _ hX, by simp [main, scale, hn, hA, hP, hS, hX]⟩
  · intro h1 h2 h3 h4 h5 info params e hA hP hS hX hL
    exact ⟨tryCatch_throw_error _ _ _ _ _ hL,
      by simp [main, scale, hn, hA, hP, hS, hX, hL]⟩
  · intro h1 h2 h3 h4 h5 h6 info params e hA hP hS hX hL hJ
    exact ⟨tryCatch_throw_error _ _ _ _ _ hJ,
      by simp [main, scale, hn, hA, hP, hS, hX, hL, hJ]⟩

/-- An instance of C7: the factory answers `null`, so the run ends at pool resolution. -/
theorem main_fail_fast_witness :
    main (happyChain none) "1" "0.5" [] =
      (successfulRun.take 4, Except.ok (some (Err.thrown "Failed to get pool address"))) :=
  (main_fail_fast (happyChain none) "1" "0.5" 1000000 (by decide)).2.1
    (successfulRun.take 3) (successfulRun.take 4) (Err.thrown "Failed to get pool address")
    (by decide) (by decide)

end TokenSwap
